import Mathlib

/-!
Shallow embedding of `src/problemset1/normal.py`.

The module wraps a normal-distribution sampler in a class
`NormalDistribution` whose `__setattr__` redraws the sample on every
attribute assignment once the three parameters (`mean`,
`standard_deviation`, `sample_size`) are all present, and a `__main__`
block implementing the CLI.

Modelling choices:
* Python floats are modelled as `ℚ` (no claim here depends on
  floating-point rounding).
* The numpy pseudo-random generator is modelled as a deterministic
  stream indexed by a seed counter `rngSeed` carried in the state; each
  draw consumes one seed.  `normalSample m sd n seed` stands for
  `numpy.random.normal(m, sd, n)` performed when the generator is at
  state `seed`; its only property used by the source is that it returns
  `n` values.
* Attribute presence/absence (`hasattr`) is modelled with `Option`
  fields; `None` stored in `sample` is modelled as `Option.none` of the
  inner option being collapsed: the `sample` field is `Option (List ℚ)`
  where `none` covers both "attribute absent" and "attribute is None",
  which the source treats identically (`self.sample is None`).
* Python exceptions are an explicit error type `PyErr`.
-/

namespace NE334

/-- Python exception kinds that the embedded code can raise. -/
inductive PyErr where
  | indexError
  | typeError
  | attributeError
  | valueError
deriving DecidableEq, Repr

/-- The attribute state of a `NormalDistribution` instance, together with
the modelled pseudo-random generator state `rngSeed`. -/
structure DistState where
  mean : Option ℚ
  standard_deviation : Option ℚ
  sample_size : Option ℕ
  sample : Option (List ℚ)
  rngSeed : ℕ
deriving DecidableEq, Repr

/-- A deterministic stand-in for one draw of the pseudo-random stream.
Only its existence matters to the source; values are arbitrary. -/
def pseudoRand (k : ℕ) : ℚ :=
  (((2 * k + 3) * (k + 1)) % 19 : ℕ) / 4 - 2

/-- Model of `numpy.random.normal(m, sd, n)` at generator state `seed`:
`n` pseudo-random values. -/
def normalSample (m sd : ℚ) (n : ℕ) (seed : ℕ) : List ℚ :=
  (List.range n).map (fun i => m + sd * pseudoRand (seed + i))

/-- `NormalDistribution._should_update`: true when all of `mean`,
`standard_deviation`, `sample_size` are present (`hasattr`). -/
def should_update (st : DistState) : Bool :=
  st.mean.isSome && st.standard_deviation.isSome && st.sample_size.isSome

/-- `NormalDistribution._calculate_sample`: draw a fresh sample from the
current parameters (the source also asserts the drawn length equals
`sample_size`, proved below as `normalSample_length`). -/
def calculate_sample (st : DistState) : List ℚ :=
  normalSample (st.mean.getD 0) (st.standard_deviation.getD 0)
    (st.sample_size.getD 0) st.rngSeed

/-- The tail of `NormalDistribution.__setattr__`: after the dictionary
write, redraw the sample (into `__dict__['sample']`, bypassing
`__setattr__`) if `_should_update` holds.  One seed is consumed per
draw. -/
def recompute (st : DistState) : DistState :=
  if should_update st then
    { st with sample := some (calculate_sample st), rngSeed := st.rngSeed + 1 }
  else st

/-- `dist.mean = v` through `__setattr__`. -/
def set_mean (v : ℚ) (st : DistState) : DistState :=
  recompute { st with mean := some v }

/-- `dist.standard_deviation = v` through `__setattr__`. -/
def set_standard_deviation (v : ℚ) (st : DistState) : DistState :=
  recompute { st with standard_deviation := some v }

/-- `dist.sample_size = v` through `__setattr__`. -/
def set_sample_size (v : ℕ) (st : DistState) : DistState :=
  recompute { st with sample_size := some v }

/-- `dist.sample = v` through `__setattr__` (the constructor performs
`self.sample = None`, which also goes through `__setattr__`). -/
def set_sample (v : Option (List ℚ)) (st : DistState) : DistState :=
  recompute { st with sample := v }

/-- A fresh instance before `__init__` runs: no attributes set. -/
def emptyState (seed : ℕ) : DistState :=
  ⟨none, none, none, none, seed⟩

/-- `NormalDistribution.__init__(mean, standard_deviation, sample_size)`:
four attribute assignments in source order, each through
`__setattr__`. -/
def normal_init (m sd : ℚ) (n : ℕ) (seed : ℕ) : DistState :=
  set_sample none (set_sample_size n (set_standard_deviation sd (set_mean m (emptyState seed))))

/-- `Scientific.Statistics.mean`: arithmetic mean, sum divided by
length. -/
def listMean (xs : List ℚ) : ℚ :=
  xs.sum / (xs.length : ℚ)

/-- Property `NormalDistribution.sample_average`: `None` when the sample
is absent, otherwise `mean(self.sample)`. -/
def sample_average (st : DistState) : Option ℚ :=
  match st.sample with
  | none => none
  | some xs => some (listMean xs)

/-- Property `NormalDistribution.square_sample_average`: `None` when the
sample is absent, otherwise `mean(multiply(sample, sample))`. -/
def square_sample_average (st : DistState) : Option ℚ :=
  match st.sample with
  | none => none
  | some xs => some (listMean (xs.map (fun x => x * x)))

/-- Rendering of a value under Python `%s`: `None` prints as "None",
a number prints via its decimal rendering (modelled by `toString` on
`ℚ`). -/
def showOpt : Option ℚ → String
  | none => "None"
  | some q => toString q

/-- Property `NormalDistribution.output`: the source format string is
`'output <x^2>= %s \n output <x>= %s'` — note the space between the
first interpolated value and the newline. -/
def output (st : DistState) : String :=
  "output <x^2>= " ++ showOpt (square_sample_average st) ++ " \n output <x>= "
    ++ showOpt (sample_average st)

/-- `NormalDistribution.__len__`: returns `self.sample_size`
(an `AttributeError` if the attribute is absent). -/
def lenDist (st : DistState) : Except PyErr ℕ :=
  match st.sample_size with
  | none => .error .attributeError
  | some n => .ok n

/-- `NormalDistribution.__getitem__(index)`: `self.sample[index]`.
When `sample` is `None`, Python raises `TypeError` (subscripting
`None`); when it is an array, Python/numpy indexing accepts
`-len ≤ index < len` with negative indices counting from the end, and
raises `IndexError` otherwise. -/
def getitem (st : DistState) (index : ℤ) : Except PyErr ℚ :=
  match st.sample with
  | none => .error .typeError
  | some xs =>
    if 0 ≤ index ∧ index < (xs.length : ℤ) then
      .ok (xs.getD index.toNat 0)
    else if -(xs.length : ℤ) ≤ index ∧ index < 0 then
      .ok (xs.getD (index + (xs.length : ℤ)).toNat 0)
    else
      .error .indexError

/-! Read operations in state-passing style.  The source's getters
(`sample`, `sample_average`, `square_sample_average`, `output`,
`__getitem__`, `__len__`) contain no attribute assignment — only
`__setattr__` mutates — so each embeds as a value paired with the
unchanged state. -/

/-- Reading `dist.sample`. -/
def read_sample (st : DistState) : Option (List ℚ) × DistState :=
  (st.sample, st)

/-- Reading `dist.sample_average`. -/
def read_sample_average (st : DistState) : Option ℚ × DistState :=
  (sample_average st, st)

/-- Reading `dist.square_sample_average`. -/
def read_square_sample_average (st : DistState) : Option ℚ × DistState :=
  (square_sample_average st, st)

/-- Reading `dist.output`. -/
def read_output (st : DistState) : String × DistState :=
  (output st, st)

/-- Reading `dist[index]`. -/
def read_getitem (st : DistState) (index : ℤ) : Except PyErr ℚ × DistState :=
  (getitem st index, st)

/-! The `__main__` CLI block. -/

/-- All characters are decimal digits. -/
def allDigits (cs : List Char) : Bool :=
  cs.all Char.isDigit

/-- Value of a digit string. -/
def digitsVal (cs : List Char) : ℕ :=
  cs.foldl (fun a c => 10 * a + (c.toNat - 48)) 0

/-- Unsigned part of Python `float(s)` on the plain-decimal subset:
digits, optionally with one decimal point, at least one digit in
total (covers inputs such as "3", "3.5", ".5", "3."). -/
def parseDecimal (cs : List Char) : Option ℚ :=
  let intPart := cs.takeWhile (fun c => c ≠ '.')
  match cs.dropWhile (fun c => c ≠ '.') with
  | [] =>
    if !intPart.isEmpty && allDigits intPart then
      some (digitsVal intPart)
    else none
  | _ :: frac =>
    if (!intPart.isEmpty || !frac.isEmpty) && allDigits intPart && allDigits frac then
      some ((digitsVal intPart : ℚ) + (digitsVal frac : ℚ) / ((10 : ℚ) ^ frac.length))
    else none

/-- Python `float(s)` on the subset above with an optional sign;
`none` models an uncaught `ValueError`. -/
def parseFloatPy (s : String) : Option ℚ :=
  match s.toList with
  | '-' :: rest => (parseDecimal rest).map (fun q => -q)
  | '+' :: rest => parseDecimal rest
  | cs => parseDecimal cs

/-- Observable outcome of one CLI run: lines printed to stdout, an
uncaught exception if any, the process exit code, and the
`NormalDistribution` instance constructed (none when no sampling
happened). -/
structure ExecResult where
  printed : List String
  uncaughtError : Option PyErr
  exitCode : ℕ
  dist : Option DistState
deriving DecidableEq, Repr

/-- The `__main__` block: with `len(argv) != 4` print the usage line and
`exit()` (code 0) before any distribution is built; otherwise parse the
three arguments with `float` (an invalid number raises `ValueError`,
terminating the process with exit code 1), construct the distribution
and print its `output`.  The sample-size float is truncated to a count
as the era-appropriate numpy accepted. -/
def pyMain (argv : List String) (seed : ℕ) : ExecResult :=
  if argv.length ≠ 4 then
    { printed := ["usage: pydev " ++ argv.headD "" ++ " <mean> <standard deviation> <# of samples>"],
      uncaughtError := none, exitCode := 0, dist := none }
  else
    match parseFloatPy (argv.getD 1 ""), parseFloatPy (argv.getD 2 ""),
        parseFloatPy (argv.getD 3 "") with
    | some m, some sd, some nQ =>
      let st := normal_init m sd (nQ.num / (nQ.den : ℤ)).toNat seed
      { printed := [output st], uncaughtError := none, exitCode := 0, dist := some st }
    | _, _, _ =>
      { printed := [], uncaughtError := some .valueError, exitCode := 1, dist := none }

/-- The drawn sample always has exactly `n` elements (the source's
`assert len(sample) == self.sample_size`). -/
theorem normalSample_length (m sd : ℚ) (n : ℕ) (seed : ℕ) :
    (normalSample m sd n seed).length = n := by
  simp [normalSample]

/-- Explicit form of a freshly constructed instance: the three
parameters are stored, the final `self.sample = None` write itself
triggered a redraw (at seed `seed + 1`; the `self.sample_size` write had
already consumed `seed`). -/
theorem normal_init_eq (m sd : ℚ) (n : ℕ) (seed : ℕ) :
    normal_init m sd n seed =
      ⟨some m, some sd, some n, some (normalSample m sd n (seed + 1)), seed + 2⟩ := rfl

/-- A concrete fully-populated instance state used in witnesses and
counterexamples. -/
def wPop : DistState := ⟨some 0, some 1, some 2, some [5, 7], 0⟩

/-- A concrete state whose sample is absent, used in witnesses and
counterexamples. -/
def wNoSample : DistState := ⟨some 0, some 1, some 3, none, 0⟩

/-- The output format exactly as the specification words it: the
square-sample-average followed immediately by the newline, with no
space in between. -/
def specOutputFormat (st : DistState) : String :=
  "output <x^2>= " ++ showOpt (square_sample_average st) ++ "\n output <x>= "
    ++ showOpt (sample_average st)

/-- C1: assigning any of the three parameters on an instance where all
three are present redraws the sample synchronously: the post-state's
sample is exactly a fresh draw from the post-assignment parameter
values, and its length is the (post-assignment) sample size. -/
theorem setattr_recomputes_sample (st : DistState) (v : ℚ) (n : ℕ)
    (hm : st.mean.isSome = true) (hs : st.standard_deviation.isSome = true)
    (hn : st.sample_size.isSome = true) :
    ((set_mean v st).sample =
        some (normalSample v (st.standard_deviation.getD 0) (st.sample_size.getD 0)
          st.rngSeed) ∧
      ((set_mean v st).sample.getD []).length = st.sample_size.getD 0 ∧
      (set_mean v st).sample_size = st.sample_size) ∧
    ((set_standard_deviation v st).sample =
        some (normalSample (st.mean.getD 0) v (st.sample_size.getD 0) st.rngSeed) ∧
      ((set_standard_deviation v st).sample.getD []).length = st.sample_size.getD 0 ∧
      (set_standard_deviation v st).sample_size = st.sample_size) ∧
    ((set_sample_size n st).sample =
        some (normalSample (st.mean.getD 0) (st.standard_deviation.getD 0) n st.rngSeed) ∧
      ((set_sample_size n st).sample.getD []).length = n) := by
  obtain ⟨m, hm'⟩ := Option.isSome_iff_exists.mp hm
  obtain ⟨s, hs'⟩ := Option.isSome_iff_exists.mp hs
  obtain ⟨k, hn'⟩ := Option.isSome_iff_exists.mp hn
  simp [set_mean, set_standard_deviation, set_sample_size, recompute, should_update,
    calculate_sample, hm', hs', hn', normalSample_length]

/-- C1 witness: instantiation at a concrete populated state. -/
theorem setattr_recomputes_sample_witness :
    ((set_mean 3 wPop).sample = some (normalSample 3 1 2 0) ∧
      ((set_mean 3 wPop).sample.getD []).length = 2 ∧
      (set_mean 3 wPop).sample_size = some 2) ∧
    ((set_standard_deviation 3 wPop).sample = some (normalSample 0 3 2 0) ∧
      ((set_standard_deviation 3 wPop).sample.getD []).length = 2 ∧
      (set_standard_deviation 3 wPop).sample_size = some 2) ∧
    ((set_sample_size 4 wPop).sample = some (normalSample 0 1 4 0) ∧
      ((set_sample_size 4 wPop).sample.getD []).length = 4) :=
  setattr_recomputes_sample wPop 3 4 rfl rfl rfl

/-- C2 counterexample: on a concrete populated state the produced string
is not the spec's claimed format — the source has a space between the
square-sample-average and the newline. -/
theorem output_ne_spec_format : output wPop ≠ specOutputFormat wPop := by
  intro h
  have hl := congrArg String.length h
  simp only [output, specOutputFormat, String.length_append] at hl
  have h14 : ("output <x^2>= ").length = 14 := by decide
  have h15 : (" \n output <x>= ").length = 15 := by decide
  have h14b : ("\n output <x>= ").length = 14 := by decide
  rw [h14, h15, h14b] at hl
  omega

/-- C2 amended: `output` is exactly
`"output <x^2>= " ++ sq ++ " \n output <x>= " ++ av` — the
square-sample-average is followed by one space, then the newline, then a
space, then the second label, then the sample average. -/
theorem output_format_amended (st : DistState) (xs : List ℚ)
    (h : st.sample = some xs) :
    output st =
      "output <x^2>= " ++ toString (listMean (xs.map (fun x => x * x))) ++
        " \n output <x>= " ++ toString (listMean xs) := by
  simp [output, sample_average, square_sample_average, showOpt, h]

/-- C2 amended, witness at a concrete populated state. -/
theorem output_format_amended_witness :
    output wPop =
      "output <x^2>= " ++ toString (listMean ([5, 7].map (fun x => x * x))) ++
        " \n output <x>= " ++ toString (listMean [5, 7]) :=
  output_format_amended wPop [5, 7] rfl

/-- C3 counterexample: with the sample absent, indexing raises
`TypeError`, not the `IndexOutOfRange` error the claim states. -/
theorem getitem_none_typeError :
    getitem wNoSample 0 = .error .typeError ∧
    (Except.error PyErr.typeError : Except PyErr ℚ) ≠ .error .indexError := by
  refine ⟨rfl, fun h => ?_⟩
  injection h with h2
  exact PyErr.noConfusion h2

/-- C3 amended: in-range indices return the corresponding sample
element; indices at or beyond the sample length fail with
`IndexOutOfRange`; but with the sample absent the failure is a
`TypeError`, not `IndexOutOfRange`. -/
theorem getitem_spec (st : DistState) (i : ℤ) :
    (∀ xs, st.sample = some xs →
      (0 ≤ i → i < (xs.length : ℤ) → getitem st i = .ok (xs.getD i.toNat 0)) ∧
      ((xs.length : ℤ) ≤ i → getitem st i = .error .indexError)) ∧
    (st.sample = none → getitem st i = .error .typeError) := by
  constructor
  · intro xs hxs
    constructor
    · intro h0 hlt
      simp only [getitem, hxs]
      rw [if_pos ⟨h0, hlt⟩]
    · intro hge
      have hnat : (0 : ℤ) ≤ (xs.length : ℤ) := by positivity
      have h1 : ¬(0 ≤ i ∧ i < (xs.length : ℤ)) := by omega
      have h2 : ¬(-(xs.length : ℤ) ≤ i ∧ i < 0) := by omega
      simp only [getitem, hxs]
      rw [if_neg h1, if_neg h2]
  · intro h
    simp [getitem, h]

/-- C3 amended, witness: an in-range read and an out-of-range read on a
concrete populated state. -/
theorem getitem_spec_witness :
    getitem wPop 1 = .ok 7 ∧ getitem wPop 5 = .error .indexError :=
  ⟨((getitem_spec wPop 1).1 [5, 7] rfl).1 (by decide) (by decide),
   ((getitem_spec wPop 5).1 [5, 7] rfl).2 (by decide)⟩

/-- C4: each average is `None` exactly when the sample is absent, and on
a present sample they are the arithmetic mean of the sample and of its
elementwise squares. -/
theorem averages_spec (st : DistState) :
    (sample_average st = none ↔ st.sample = none) ∧
    (square_sample_average st = none ↔ st.sample = none) ∧
    ∀ xs, st.sample = some xs →
      sample_average st = some (listMean xs) ∧
      square_sample_average st = some (listMean (xs.map (fun x => x * x))) := by
  cases h : st.sample with
  | none => simp [sample_average, square_sample_average, h]
  | some xs => simp [sample_average, square_sample_average, h]

/-- C4 witness: the averages at a concrete populated state. -/
theorem averages_spec_witness :
    sample_average wPop = some (listMean [5, 7]) ∧
    square_sample_average wPop = some (listMean ([5, 7].map (fun x => x * x))) :=
  (averages_spec wPop).2.2 [5, 7] rfl

/-- C5: a freshly constructed instance reports `len` equal to the given
sample size, and its sample has exactly that many elements. -/
theorem length_matches_sample_size (m sd : ℚ) (n : ℕ) (seed : ℕ) :
    lenDist (normal_init m sd n seed) = .ok n ∧
    ∃ xs, (normal_init m sd n seed).sample = some xs ∧ xs.length = n :=
  ⟨rfl, normalSample m sd n (seed + 1), rfl, normalSample_length m sd n (seed + 1)⟩

/-- C8: every read operation leaves the state unchanged and returns the
same value on a repeated read — no read triggers a redraw. -/
theorem reads_do_not_redraw (st : DistState) (index : ℤ) :
    (read_sample st).2 = st ∧
    (read_sample (read_sample st).2).1 = (read_sample st).1 ∧
    (read_sample_average st).2 = st ∧
    (read_sample_average (read_sample_average st).2).1 = (read_sample_average st).1 ∧
    (read_square_sample_average st).2 = st ∧
    (read_square_sample_average (read_square_sample_average st).2).1 =
      (read_square_sample_average st).1 ∧
    (read_output st).2 = st ∧
    (read_output (read_output st).2).1 = (read_output st).1 ∧
    (read_getitem st index).2 = st ∧
    (read_getitem (read_getitem st index).2 index).1 = (read_getitem st index).1 :=
  ⟨rfl, rfl, rfl, rfl, rfl, rfl, rfl, rfl, rfl, rfl⟩

/-- C9: construction always ends with a present sample of the requested
length — the constructor's final `self.sample = None` write itself
triggers a fresh draw (at seed `seed + 1`) — so both averages are
defined on a constructed instance. -/
theorem construction_yields_sample (m sd : ℚ) (n : ℕ) (seed : ℕ) :
    (normal_init m sd n seed).sample = some (normalSample m sd n (seed + 1)) ∧
    ((normal_init m sd n seed).sample.getD []).length = n ∧
    (sample_average (normal_init m sd n seed)).isSome = true ∧
    (square_sample_average (normal_init m sd n seed)).isSome = true := by
  refine ⟨rfl, ?_, rfl, rfl⟩
  simpa using normalSample_length m sd n (seed + 1)

/-- C10: a negative index `-k` with `1 ≤ k ≤ N` does not fail: it
returns the element at position `N - k`, counting from the end. -/
theorem negative_index_wraps (st : DistState) (xs : List ℚ) (k : ℕ)
    (h : st.sample = some xs) (h1 : 1 ≤ k) (h2 : k ≤ xs.length) :
    getitem st (-(k : ℤ)) = .ok (xs.getD (xs.length - k) 0) := by
  have hc1 : ¬(0 ≤ -(k : ℤ) ∧ -(k : ℤ) < (xs.length : ℤ)) := by omega
  have hc2 : -(xs.length : ℤ) ≤ -(k : ℤ) ∧ -(k : ℤ) < 0 := by omega
  have hval : (-(k : ℤ) + (xs.length : ℤ)).toNat = xs.length - k := by omega
  simp only [getitem, h]
  rw [if_neg hc1, if_pos hc2, hval]

/-- C10 witness: `dist[-1]` on a two-element sample returns the last
element. -/
theorem negative_index_wraps_witness : getitem wPop (-1) = .ok 7 :=
  negative_index_wraps wPop [5, 7] 1 rfl (by decide) (by decide)

/-- C6: with an argument count other than 3 (so `len(argv) != 4`), the
run prints exactly the usage line — of the form
`usage: <program> <mean> <standard deviation> <# of samples>`, where the
program is rendered as `pydev argv[0]` — exits with code 0, raises
nothing, and constructs no distribution (hence draws no sample). -/
theorem usage_on_bad_argc (argv : List String) (seed : ℕ) (h : argv.length ≠ 4) :
    pyMain argv seed =
      { printed := ["usage: pydev " ++ argv.headD "" ++
          " <mean> <standard deviation> <# of samples>"],
        uncaughtError := none, exitCode := 0, dist := none } := by
  unfold pyMain
  rw [if_pos h]

/-- C6 witness: a run with no positional arguments. -/
theorem usage_on_bad_argc_witness :
    pyMain ["normal.py"] 0 =
      { printed := ["usage: pydev normal.py <mean> <standard deviation> <# of samples>"],
        uncaughtError := none, exitCode := 0, dist := none } := by
  have h := usage_on_bad_argc ["normal.py"] 0 (by decide)
  simpa using h

/-- C7: with exactly 3 positional arguments of which at least one fails
to parse as a number, the run surfaces an uncaught `ValueError`, exits
with code 1, and constructs no distribution. -/
theorem parse_error_exits_nonzero (argv : List String) (seed : ℕ)
    (h4 : argv.length = 4)
    (h : parseFloatPy (argv.getD 1 "") = none ∨ parseFloatPy (argv.getD 2 "") = none ∨
      parseFloatPy (argv.getD 3 "") = none) :
    (pyMain argv seed).exitCode = 1 ∧
    (pyMain argv seed).uncaughtError = some .valueError ∧
    (pyMain argv seed).dist = none := by
  unfold pyMain
  rw [if_neg (by omega)]
  rcases h with h | h | h
  · rw [h]
    exact ⟨rfl, rfl, rfl⟩
  · cases hp : parseFloatPy (argv.getD 1 "") with
    | none => exact ⟨rfl, rfl, rfl⟩
    | some m => rw [h]; exact ⟨rfl, rfl, rfl⟩
  · cases hp1 : parseFloatPy (argv.getD 1 "") with
    | none => exact ⟨rfl, rfl, rfl⟩
    | some m =>
      cases hp2 : parseFloatPy (argv.getD 2 "") with
      | none => exact ⟨rfl, rfl, rfl⟩
      | some s => rw [h]; exact ⟨rfl, rfl, rfl⟩

/-- C7 witness: a run whose first positional argument is not a number. -/
theorem parse_error_exits_nonzero_witness :
    (pyMain ["normal.py", "abc", "1", "2"] 0).exitCode = 1 ∧
    (pyMain ["normal.py", "abc", "1", "2"] 0).uncaughtError = some .valueError ∧
    (pyMain ["normal.py", "abc", "1", "2"] 0).dist = none :=
  parse_error_exits_nonzero ["normal.py", "abc", "1", "2"] 0 rfl (Or.inl (by decide))

end NE334
